import Mathlib

/-!
Shallow embedding of the civciv terminal SQL browser (src/app.rs, src/main.rs).

The SQL input buffer is modelled as the list of its Unicode scalar values
together with a cursor measured the way the Rust code measures it.  Rust
`String::len` and `String::insert` work on UTF-8 *byte* offsets, so the
embedding tracks byte positions explicitly via `utf8Width` / `byteLen`, and
`String::insert`, which panics when the index is not a char boundary or is
out of range, becomes the `Option`-valued `insertAtByte`.

The external collaborators (duckdb connection, arrow formatting,
comfy_table rendering) are modelled at the interface the repository code
uses: `Connection.prepare` / `Connection.query_arrow` are fallible
functions, arrow's `ArrayFormatter` carries the `display_error(true)`
behaviour of writing a value-formatting error into the output, and
`renderGridString` reproduces comfy_table's plain-text grid for the preset
loaded in `data_to_table`.
-/

namespace Civciv

/-- `usize::MAX` on a 64-bit target; Rust saturating arithmetic caps here. -/
def USIZE_MAX : Nat := 2 ^ 64 - 1

/-- UTF-8 encoded width in bytes of one Unicode scalar value. -/
def utf8Width (c : Char) : Nat :=
  if c.toNat < 0x80 then 1
  else if c.toNat < 0x800 then 2
  else if c.toNat < 0x10000 then 3
  else 4

/-- Byte length of a text, as Rust `String::len` reports it. -/
def byteLen (l : List Char) : Nat := (l.map utf8Width).sum

/-- Rust `String::insert(idx, ch)`: inserts at byte offset `idx`; panics
(`none`) when `idx` is larger than the byte length or is not a char
boundary. -/
def insertAtByte (c : Char) : List Char → Nat → Option (List Char)
  | l, 0 => some (c :: l)
  | [], _ + 1 => none
  | x :: xs, n + 1 =>
    if utf8Width x ≤ n + 1 then
      (insertAtByte c xs (n + 1 - utf8Width x)).map (fun t => x :: t)
    else
      none

/-- `InputMode` from src/app.rs. -/
inductive InputMode
  | normal
  | editing
deriving DecidableEq

/-- One cell value of an arrow array, seen through the formatting
interface the renderer uses: values that format to a string, nulls
(rendered as the default empty string), and values whose formatting
fails with a diagnostic. -/
inductive CellValue
  | intVal (i : Int)
  | strVal (s : String)
  | nullVal
  | badVal (msg : String)
deriving DecidableEq

/-- One arrow column: whether `ArrayFormatter::try_new` supports its data
type, and its values. -/
structure ArrowColumn where
  supportedType : Bool
  values : List CellValue
deriving DecidableEq

/-- An arrow `RecordBatch`: the schema's ordered column names, the
columns, and the batch row count. -/
structure RecordBatch where
  fields : List String
  columns : List ArrowColumn
  numRows : Nat
deriving DecidableEq

/-- ratatui `ScrollbarState`: the two fields src/main.rs updates. -/
structure ScrollbarState where
  content_length : Nat
  position : Nat
deriving DecidableEq

/-- `App` from src/app.rs (the borrowed connection is passed separately). -/
structure App where
  input : List Char
  cursor_position : Nat
  input_mode : InputMode
  data : List RecordBatch
  vertical_scroll_state : ScrollbarState
  vertical_scroll : Nat
deriving DecidableEq

/-- A prepared statement handle. -/
structure Statement where
  sql : List Char
deriving DecidableEq

/-- The duckdb connection, at the interface src/app.rs consumes:
`prepare` and `query_arrow` (the latter already drained by `collect`). -/
structure Connection where
  prepare : List Char → Except String Statement
  query_arrow : Statement → Except String (List RecordBatch)

/-- `App::clamp_cursor`: `new_cursor_pos.clamp(0, self.input.len())`;
`self.input.len()` is the UTF-8 byte length. -/
def App.clamp_cursor (a : App) (new_cursor_pos : Nat) : Nat :=
  min new_cursor_pos (byteLen a.input)

/-- `App::move_cursor_left`: `saturating_sub(10)` (truncated subtraction
on `Nat`) then clamp. -/
def App.move_cursor_left (a : App) : App :=
  { a with cursor_position := a.clamp_cursor (a.cursor_position - 10) }

/-- `App::move_cursor_right`: `saturating_add(10)` then clamp.  The clamp
bound `byteLen a.input` is at most `USIZE_MAX` for any real string, so
the saturation point of the addition is never reached after clamping and
plain `Nat` addition is faithful. -/
def App.move_cursor_right (a : App) : App :=
  { a with cursor_position := a.clamp_cursor (a.cursor_position + 10) }

/-- `App::enter_char`: `self.input.insert(self.cursor_position, new_char)`
(a byte-offset insertion that can panic, hence `Option`), then
`move_cursor_right`. -/
def App.enter_char (a : App) (new_char : Char) : Option App :=
  (insertAtByte new_char a.input a.cursor_position).map fun t =>
    App.move_cursor_right { a with input := t }

/-- `App::delete_char`: when the cursor is not leftmost, rebuild the text
from `chars().take(cursor_position - 1)` and `chars().skip(cursor_position)`
(char-indexed), then `move_cursor_left`. -/
def App.delete_char (a : App) : App :=
  if a.cursor_position ≠ 0 then
    let before_char_to_delete := a.input.take (a.cursor_position - 1)
    let after_char_to_delete := a.input.drop a.cursor_position
    App.move_cursor_left { a with input := before_char_to_delete ++ after_char_to_delete }
  else
    a

/-- `App::reset_cursor`. -/
def App.reset_cursor (a : App) : App :=
  { a with cursor_position := 0 }

/-- `self.input.clear()` followed by `reset_cursor()` — the `clear()`
operation of the spec's InputBuffer (inlined in `submit_sql` in the
source). -/
def App.clear_input (a : App) : App :=
  { a with input := [], cursor_position := 0 }

/-- Outcome of `App::submit_sql`, whose Rust signature returns `()`:
either the mutated `App`, or a panic (from `.unwrap()` on an `Err`)
carrying the engine's diagnostic. -/
inductive SubmitResult
  | ok (a : App)
  | panicked (msg : String)
deriving DecidableEq

/-- `App::submit_sql`: prepare (unwrap), query_arrow + collect (unwrap),
then replace `data`, clear the input and reset the cursor. -/
def App.submit_sql (a : App) (db : Connection) : SubmitResult :=
  match db.prepare a.input with
  | .error e => .panicked e
  | .ok stmt =>
    match db.query_arrow stmt with
    | .error e => .panicked e
    | .ok batches =>
      .ok { a with data := batches, input := [], cursor_position := 0 }

/-- comfy_table `Table`, at the interface src/app.rs uses: the header set
by `set_header` and the rows added by `add_row` (cells already formatted
to strings).  `Table::new()` starts with no header and no rows. -/
structure Table where
  header : List String := []
  rows : List (List String) := []
deriving DecidableEq

/-- Formatting one arrow value to display text, before the
`display_error` policy is applied: numbers in decimal, strings verbatim,
null as the default empty-string marker of `FormatOptions::default()`,
and failing values with their diagnostic. -/
def tryFormatValue : CellValue → Except String String
  | .intVal i => .ok (toString i)
  | .strVal s => .ok s
  | .nullVal => .ok ""
  | .badVal msg => .error msg

/-- arrow `ArrayFormatter` for one column. -/
structure ArrayFormatter where
  column : ArrowColumn
deriving DecidableEq

/-- `ArrayFormatter::try_new`: fails when the column's data type is not
supported by the display machinery. -/
def ArrayFormatter.try_new (c : ArrowColumn) : Except String ArrayFormatter :=
  if c.supportedType then .ok ⟨c⟩ else .error "Unsupported data type"

/-- `formatter.value(row)` rendered through `Display` under
`FormatOptions::default().with_display_error(true)`: a value-level
formatting failure is written into the output as the error text instead
of being propagated. -/
def ArrayFormatter.value (f : ArrayFormatter) (row : Nat) : String :=
  match tryFormatValue (f.column.values.getD row .nullVal) with
  | .ok s => s
  | .error e => "ERROR: " ++ e

/-- Rust `Iterator::collect::<Result<Vec<_>, E>>()`: the first `Err`
wins, otherwise the list of all `Ok` payloads in order. -/
def collectResults {α : Type} : List (Except String α) → Except String (List α)
  | [] => .ok []
  | .error e :: _ => .error e
  | .ok x :: rest => (collectResults rest).map (fun l => x :: l)

/-- The body of `data_to_table`'s per-batch loop: build the formatters
(`collect::<Result<Vec<_>, ArrowError>>()?`), then one formatted row per
`row in 0..batch.num_rows()`. -/
def batchRows (b : RecordBatch) : Except String (List (List String)) :=
  match collectResults (b.columns.map ArrayFormatter.try_new) with
  | .error e => .error e
  | .ok formatters =>
    .ok ((List.range b.numRows).map fun row => formatters.map fun f => f.value row)

/-- `App::data_to_table`: empty data gives the empty table; otherwise the
header is the first batch's schema field names and the rows are appended
batch by batch, a formatter-construction error returning early through
`?`. -/
def App.data_to_table (a : App) : Except String Table :=
  match a.data with
  | [] => .ok {}
  | b :: _ =>
    match collectResults (a.data.map batchRows) with
    | .error e => .error e
    | .ok rowsPerBatch => .ok { header := b.fields, rows := rowsPerBatch.flatten }

/-- A run of `n` spaces. -/
def spaces (n : Nat) : String := String.mk (List.replicate n ' ')

/-- One padded cell: comfy_table's default padding of one space on each
side, content left-aligned and filled to the column width. -/
def cellText (w : Nat) (s : String) : String :=
  " " ++ s ++ spaces (w - s.length) ++ " "

/-- Width of column `i`: the widest content among the header cell and the
rows' cells of that column. -/
def colWidth (t : Table) (i : Nat) : Nat :=
  t.rows.foldl (fun m r => max m (r.getD i "").length) (t.header.getD i "").length

/-- The content widths of all columns of a table. -/
def colWidths (t : Table) : List Nat :=
  (List.range t.header.length).map (colWidth t)

/-- A horizontal border segment over one column (content width plus the
two padding columns). -/
def hline (w : Nat) : String := String.mk (List.replicate (w + 2) '-')

/-- A full-width `+---+---+` border line. -/
def borderLine (ws : List Nat) : String :=
  "+" ++ String.intercalate "+" (ws.map hline) ++ "+"

/-- A `| cell | cell |` content line. -/
def textLine (ws : List Nat) (cells : List String) : String :=
  "|" ++ String.intercalate "|" ((List.zip ws cells).map fun p => cellText p.1 p.2) ++ "|"

/-- Models the external comfy_table crate's plain-text rendering
(`Table::to_string`) under the preset `"||--+-++|    ++++++"` loaded in
`data_to_table`: `+`-cornered `-` top/bottom borders and header
separator, `|` column separators, no separator lines between data rows,
lines joined by newlines.  An empty table renders as the empty string. -/
def renderGridString (t : Table) : String :=
  if t.header.isEmpty && t.rows.isEmpty then ""
  else
    let ws := colWidths t
    String.intercalate "\n"
      ([borderLine ws, textLine ws t.header, borderLine ws]
        ++ t.rows.map (textLine ws) ++ [borderLine ws])

/-- Number of renderable lines of a grid text (what a text block displays
as distinct lines): one more than the number of newline separators, and
zero for the empty text. -/
def lineCount (s : String) : Nat :=
  if s.data = [] then 0 else s.data.count '\n' + 1

/-- The `ui` frame routine of src/main.rs, restricted to its effect on
the application state: `data_to_table().unwrap()` (an error panics, hence
`Except`), then `vertical_scroll_state.content_length(table.len())`
where `table` is the rendered grid string and `.len()` its byte length. -/
def ui (a : App) : Except String App :=
  match a.data_to_table with
  | .error e => .error e
  | .ok table =>
    let gridText := renderGridString table
    .ok { a with vertical_scroll_state :=
            { a.vertical_scroll_state with content_length := gridText.utf8ByteSize } }

/-- crossterm key codes, restricted to those src/main.rs matches on. -/
inductive KeyCode
  | char (c : Char)
  | enter
  | backspace
  | left
  | right
  | esc
  | up
  | down
  | other
deriving DecidableEq

/-- crossterm key event kinds. -/
inductive KeyEventKind
  | press
  | rep
  | release
deriving DecidableEq

/-- A crossterm key event: code plus kind. -/
structure KeyEvent where
  code : KeyCode
  kind : KeyEventKind
deriving DecidableEq

/-- Outcome of one dispatch of `run_app`'s match: continue with a new
state, return from the loop (`q`), or panic (an `unwrap` fired). -/
inductive StepOutcome
  | cont (a : App)
  | quit (a : App)
  | panicked (msg : String)
deriving DecidableEq

/-- The `KeyCode::Down` arm in Normal mode: `saturating_add(1)` on
`vertical_scroll`, then `vertical_scroll_state.position(vertical_scroll)`. -/
def scrollDownStep (a : App) : App :=
  let v := min (a.vertical_scroll + 1) USIZE_MAX
  { a with vertical_scroll := v,
           vertical_scroll_state := { a.vertical_scroll_state with position := v } }

/-- The `KeyCode::Up` arm in Normal mode: only when
`vertical_scroll >= 1`, `saturating_sub(1)` then reposition. -/
def scrollUpStep (a : App) : App :=
  if 1 ≤ a.vertical_scroll then
    let v := a.vertical_scroll - 1
    { a with vertical_scroll := v,
             vertical_scroll_state := { a.vertical_scroll_state with position := v } }
  else
    a

/-- The key-event dispatch of `run_app` (src/main.rs): Normal-mode arms
match on the key code alone; Editing-mode arms are guarded by
`key.kind == KeyEventKind::Press` and other kinds are ignored. -/
def processEvent (db : Connection) (a : App) (k : KeyEvent) : StepOutcome :=
  match a.input_mode with
  | .normal =>
    match k.code with
    | .char c =>
      if c = 'e' then .cont { a with input_mode := .editing }
      else if c = 'q' then .quit a
      else .cont a
    | .down => .cont (scrollDownStep a)
    | .up => .cont (scrollUpStep a)
    | _ => .cont a
  | .editing =>
    if k.kind = .press then
      match k.code with
      | .enter =>
        match a.submit_sql db with
        | .ok a2 => .cont a2
        | .panicked m => .panicked m
      | .char c =>
        match a.enter_char c with
        | some a2 => .cont a2
        | none => .panicked "byte index is not a char boundary"
      | .backspace => .cont a.delete_char
      | .left => .cont a.move_cursor_left
      | .right => .cont a.move_cursor_right
      | .esc => .cont { a with input_mode := .normal }
      | _ => .cont a
    else
      .cont a

/-- One iteration of `run_app`'s loop: draw the frame first
(`terminal.draw(|f| ui(f, &mut app))`), then read and dispatch one key
event. -/
def runStep (db : Connection) (a : App) (k : KeyEvent) : StepOutcome :=
  match ui a with
  | .error e => .panicked e
  | .ok a1 => processEvent db a1 k

/-- Iterated Up-key processing in Normal mode (`n` Up events in a row). -/
def upIter : Nat → App → App
  | 0, a => a
  | n + 1, a => upIter n (scrollUpStep a)

/-! ### Concrete fixtures -/

/-- A fresh app in Editing mode with empty input and no data. -/
def appEmpty : App :=
  { input := [], cursor_position := 0, input_mode := .editing, data := [],
    vertical_scroll_state := ⟨0, 0⟩, vertical_scroll := 0 }

/-- A one-column (`"1"`), one-row batch holding the integer 1 — the
result shape of `SELECT 1`. -/
def batch1 : RecordBatch :=
  { fields := ["1"], columns := [{ supportedType := true, values := [CellValue.intVal 1] }],
    numRows := 1 }

/-- The app right after a successful `SELECT 1`-style result arrived. -/
def appData1 : App := { appEmpty with data := [batch1] }

/-- The app with the (ill-formed) SQL text `BAD` typed and a previous
result still held in `data`. -/
def appBadSql : App := { appEmpty with input := ['B', 'A', 'D'], data := [batch1] }

/-- A connection whose prepare step always fails with a parser error. -/
def badConn : Connection :=
  { prepare := fun _ => .error "Parser Error: syntax error at or near \x22BAD\x22",
    query_arrow := fun _ => .ok [] }

/-- A connection whose prepare succeeds but whose execution step fails. -/
def queryFailConn : Connection :=
  { prepare := fun s => .ok ⟨s⟩,
    query_arrow := fun _ => .error "Binder Error: referenced column not found" }

/-- A connection on which any query succeeds and yields `[batch1]`. -/
def goodConn : Connection :=
  { prepare := fun s => .ok ⟨s⟩,
    query_arrow := fun _ => .ok [batch1] }

/-- The app with `SELECT 1` typed, in Editing mode. -/
def appSel : App := { appEmpty with input := "SELECT 1".toList }

/-- Four euro signs (three UTF-8 bytes each) entered one by one into an
empty buffer. -/
def app4Euro : Option App :=
  (((appEmpty.enter_char '€').bind (fun a => a.enter_char '€')).bind
    (fun a => a.enter_char '€')).bind (fun a => a.enter_char '€')

/-- The app holding the single two-byte character `é` with the cursor at
the left edge. -/
def appE : App := { appEmpty with input := ['é'] }

/-- The state actually produced by entering `é` into the empty buffer:
the cursor lands at byte offset 2, past the single scalar value. -/
def appE1 : App := { appEmpty with input := ['é'], cursor_position := 2 }

/-- A two-column batch with one row. -/
def batchA : RecordBatch :=
  { fields := ["x", "y"],
    columns := [⟨true, [CellValue.intVal 1]⟩, ⟨true, [CellValue.strVal "a"]⟩],
    numRows := 1 }

/-- A second batch with the same schema and two rows, one value of which
fails to format. -/
def batchB : RecordBatch :=
  { fields := ["x", "y"],
    columns := [⟨true, [CellValue.intVal 2, CellValue.nullVal]⟩,
                ⟨true, [CellValue.strVal "b", CellValue.badVal "oops"]⟩],
    numRows := 2 }

/-- The app holding the two-batch result `[batchA, batchB]`. -/
def appTwo : App := { appEmpty with data := [batchA, batchB] }

/-- The table `data_to_table` renders from `appTwo`. -/
def tTwo : Table :=
  { header := ["x", "y"], rows := [["1", "a"], ["2", "b"], ["", "ERROR: oops"]] }

/-- A batch with one row whose single cell value cannot be formatted. -/
def badCellBatch : RecordBatch :=
  { fields := ["c"], columns := [{ supportedType := true, values := [CellValue.badVal "Invalid date"] }],
    numRows := 1 }

/-- The app holding a result with an unformattable cell value. -/
def appBadCell : App := { appEmpty with data := [badCellBatch] }

/-- A column whose data type the display machinery does not support. -/
def unsupCol : ArrowColumn := ⟨false, []⟩

/-- A batch with an unsupported column type. -/
def unsupBatch : RecordBatch := { fields := ["u"], columns := [unsupCol], numRows := 0 }

/-- The app holding a result with an unsupported column type. -/
def appUnsup : App := { appEmpty with data := [unsupBatch] }

/-- A fresh app in Normal mode (as `App::new` creates it). -/
def appNormal : App :=
  { input := [], cursor_position := 0, input_mode := .normal, data := [],
    vertical_scroll_state := ⟨0, 0⟩, vertical_scroll := 0 }

/-! ### Helper lemmas about the renderer -/

/-- `collect` over a mapped list succeeds with the pointwise results when
every element succeeds. -/
theorem collectResults_map_ok {α β : Type} (l : List α) (f : α → Except String β)
    (g : α → β) (h : ∀ x ∈ l, f x = .ok (g x)) :
    collectResults (l.map f) = .ok (l.map g) := by
  induction l with
  | nil => rfl
  | cons a l ih =>
    have ha := h a (by simp)
    have ihl := ih (fun x hx => h x (by simp [hx]))
    simp [collectResults, ha, ihl, Except.map]

/-- Inversion for `collect` over a mapped list: a successful collect is
the pointwise list, provided each element's success value is determined. -/
theorem collectResults_map_inv {α β : Type} (l : List α) (f : α → Except String β)
    (g : α → β) (hg : ∀ x y, f x = .ok y → y = g x) :
    ∀ r, collectResults (l.map f) = .ok r → r = l.map g := by
  induction l with
  | nil => intro r h; simp [collectResults] at h; simp [h.symm]
  | cons a l ih =>
    intro r h
    cases hfa : f a with
    | error e => rw [List.map_cons, hfa] at h; exact absurd h (by simp [collectResults])
    | ok y =>
      rw [List.map_cons, hfa] at h
      simp only [collectResults] at h
      cases hrest : collectResults (l.map f) with
      | error e => rw [hrest] at h; exact absurd h (by simp [Except.map])
      | ok rl =>
        rw [hrest] at h
        simp [Except.map] at h
        rw [← h, hg a y hfa, ih rl hrest]
        simp

/-- `collect` over a mapped list fails when some element fails. -/
theorem collectResults_map_error {α β : Type} (l : List α) (f : α → Except String β)
    (h : ∃ x ∈ l, ∃ e, f x = .error e) :
    ∃ e, collectResults (l.map f) = .error e := by
  induction l with
  | nil => simp at h
  | cons a l ih =>
    cases hfa : f a with
    | error e => exact ⟨e, by simp [collectResults, hfa]⟩
    | ok y =>
      rcases h with ⟨x, hx, e, hxe⟩
      rcases List.mem_cons.mp hx with rfl | hxl
      · rw [hfa] at hxe; exact absurd hxe (by simp)
      · rcases ih ⟨x, hxl, e, hxe⟩ with ⟨e2, he2⟩
        exact ⟨e2, by simp [collectResults, hfa, he2, Except.map]⟩

/-- A successful `ArrayFormatter::try_new` returns the formatter of its
column. -/
theorem tryNew_ok_inv (c : ArrowColumn) (f : ArrayFormatter)
    (h : ArrayFormatter.try_new c = .ok f) : f = ⟨c⟩ := by
  unfold ArrayFormatter.try_new at h
  by_cases hc : c.supportedType
  · simp [hc] at h; exact h.symm
  · simp [hc] at h

/-- The row lists a batch contributes when its formatters are built
successfully. -/
def batchRowsSpec (b : RecordBatch) : List (List String) :=
  (List.range b.numRows).map fun row => b.columns.map fun c => ArrayFormatter.value ⟨c⟩ row

/-- Inversion for `batchRows`: success determines the rows. -/
theorem batchRows_ok_inv (b : RecordBatch) (rs : List (List String))
    (h : batchRows b = .ok rs) : rs = batchRowsSpec b := by
  unfold batchRows at h
  cases hc : collectResults (b.columns.map ArrayFormatter.try_new) with
  | error e => rw [hc] at h; exact absurd h (by simp)
  | ok fs =>
    rw [hc] at h
    have hfs : fs = b.columns.map (fun c => (⟨c⟩ : ArrayFormatter)) :=
      collectResults_map_inv b.columns ArrayFormatter.try_new _ tryNew_ok_inv fs hc
    simp only [Except.ok.injEq] at h
    rw [← h, hfs, batchRowsSpec]
    simp [List.map_map]

/-- `batchRows` succeeds on a batch whose column types are all
supported. -/
theorem batchRows_ok (b : RecordBatch) (h : ∀ c ∈ b.columns, c.supportedType = true) :
    batchRows b = .ok (batchRowsSpec b) := by
  have hc : collectResults (b.columns.map ArrayFormatter.try_new)
      = .ok (b.columns.map fun c => (⟨c⟩ : ArrayFormatter)) :=
    collectResults_map_ok b.columns _ _ (fun c hcm => by
      simp [ArrayFormatter.try_new, h c hcm])
  unfold batchRows
  rw [hc]
  simp only [Except.ok.injEq]
  unfold batchRowsSpec
  simp [List.map_map]

/-- `batchRows` fails on a batch with an unsupported column type. -/
theorem batchRows_error (b : RecordBatch) (h : ∃ c ∈ b.columns, c.supportedType = false) :
    ∃ e, batchRows b = .error e := by
  rcases h with ⟨c, hcm, hc⟩
  rcases collectResults_map_error b.columns ArrayFormatter.try_new
      ⟨c, hcm, "Unsupported data type", by simp [ArrayFormatter.try_new, hc]⟩ with ⟨e, he⟩
  exact ⟨e, by unfold batchRows; rw [he]⟩

/-- Characterization of a successful `data_to_table` on non-empty data. -/
theorem data_to_table_ok_inv (a : App) (b : RecordBatch) (rest : List RecordBatch)
    (hd : a.data = b :: rest) (t : Table) (h : a.data_to_table = .ok t) :
    t.header = b.fields ∧ t.rows = (a.data.map batchRowsSpec).flatten := by
  unfold App.data_to_table at h
  rw [hd] at h
  cases hc : collectResults ((b :: rest).map batchRows) with
  | error e => rw [hc] at h; exact absurd h (by simp)
  | ok rowsPerBatch =>
    rw [hc] at h
    have hrows : rowsPerBatch = (b :: rest).map batchRowsSpec :=
      collectResults_map_inv (b :: rest) batchRows batchRowsSpec
        (fun x y hxy => batchRows_ok_inv x y hxy) rowsPerBatch hc
    simp only [Except.ok.injEq] at h
    rw [← h, hrows, hd]
    exact ⟨rfl, rfl⟩

/-! ### Claims -/

/-- C1, counterexample: on the concrete ill-formed SQL text `BAD`, the
prepare step fails and `submit_sql` panics through `.unwrap()`: the call
never returns, so it does not return a `QueryError` value to the caller
(the session aborts), refuting the claim as stated. -/
theorem c1_counterexample :
    appBadSql.submit_sql badConn
      = SubmitResult.panicked "Parser Error: syntax error at or near \x22BAD\x22" := rfl

/-- C1 (amended): on prepare or execution failure, `submit_sql` panics
via `.unwrap()` with the engine's diagnostic message and therefore never
produces a mutated application state — in particular the `data` field is
not touched by the failed submission, because the panic fires before the
assignment to `self.data`. -/
theorem c1_amended (db : Connection) (a : App) :
    (∀ e, db.prepare a.input = .error e → a.submit_sql db = .panicked e) ∧
    (∀ stmt e, db.prepare a.input = .ok stmt → db.query_arrow stmt = .error e →
      a.submit_sql db = .panicked e) := by
  constructor
  · intro e he
    simp [App.submit_sql, he]
  · intro stmt e hs hq
    simp [App.submit_sql, hs, hq]

/-- C1 witness: the execution-failure branch at a concrete connection. -/
theorem c1_witness :
    appBadSql.submit_sql queryFailConn
      = SubmitResult.panicked "Binder Error: referenced column not found" :=
  (c1_amended queryFailConn appBadSql).2 ⟨appBadSql.input⟩ _ rfl rfl

/-- C2: entering four euro signs (three UTF-8 bytes each) one by one
succeeds and leaves the cursor at byte offset 12; after `move_cursor_left`
the cursor sits at byte offset 2, inside the first character, and the
next `enter_char` calls `String::insert` with a non-boundary byte index
and panics (`none`).  The buffer operations are therefore not total: the
claim is right about the intent (the in-code comment in `delete_char`
avoids byte indexing precisely because of char boundaries) but
`enter_char` indexes by bytes. -/
theorem c2_theorem :
    app4Euro = some { appEmpty with input := ['€', '€', '€', '€'], cursor_position := 12 } ∧
    (app4Euro.map App.move_cursor_left).bind (fun a => a.enter_char 'a') = none :=
  ⟨rfl, rfl⟩

/-- C3, counterexample: entering the two-byte character `é` into the
empty buffer leaves `cursor_position = 2`, which exceeds the buffer
length of 1 counted in Unicode scalar values — the claimed invariant
`cursor_position ≤ length(text)` fails when length is measured in scalar
values. -/
theorem c3_counterexample :
    appEmpty.enter_char 'é' = some appE1 ∧
    appE1.cursor_position = 2 ∧ appE1.input.length = 1 ∧
    ¬ appE1.cursor_position ≤ appE1.input.length := by
  refine ⟨rfl, rfl, rfl, ?_⟩
  decide

/-- C3 (amended): after every buffer operation that completes without
panicking, `0 ≤ cursor_position ≤ byteLen(text)` holds, where the length
is the UTF-8 byte length that `clamp_cursor` actually clamps to (the
lower bound is inherent in the `Nat` cursor, mirroring `usize`). -/
theorem c3_amended (a a2 : App) (c : Char) :
    (a.enter_char c = some a2 → a2.cursor_position ≤ byteLen a2.input) ∧
    a.delete_char.cursor_position ≤ byteLen a.delete_char.input ∧
    a.move_cursor_left.cursor_position ≤ byteLen a.move_cursor_left.input ∧
    a.move_cursor_right.cursor_position ≤ byteLen a.move_cursor_right.input ∧
    a.clear_input.cursor_position ≤ byteLen a.clear_input.input := by
  refine ⟨?_, ?_, ?_, ?_, ?_⟩
  · intro h
    rcases Option.map_eq_some'.mp h with ⟨t, _, rfl⟩
    simp [App.move_cursor_right, App.clamp_cursor]
  · unfold App.delete_char
    split
    · simp [App.move_cursor_left, App.clamp_cursor]
    · next hc =>
      have : a.cursor_position = 0 := by omega
      simp [this]
  · simp [App.move_cursor_left, App.clamp_cursor]
  · simp [App.move_cursor_right, App.clamp_cursor]
  · simp [App.clear_input]

/-- C3 witness: the amended invariant at the concrete `é` insertion. -/
theorem c3_witness :
    appEmpty.enter_char 'é' = some appE1 ∧
    appE1.cursor_position ≤ byteLen appE1.input :=
  ⟨rfl, (c3_amended appEmpty appE1 'é').1 rfl⟩

/-- C4, counterexample: for the one-column, one-row result of `SELECT 1`
the rendered grid has 5 lines but 29 bytes, and `ui` stores 29 — the byte
length `table.len()` of the grid string — into
`vertical_scroll_state.content_length`, not the line count 5. -/
theorem c4_counterexample :
    ui appData1 = .ok { appData1 with vertical_scroll_state := ⟨29, 0⟩ } ∧
    appData1.data_to_table = .ok { header := ["1"], rows := [["1"]] } ∧
    (renderGridString { header := ["1"], rows := [["1"]] }).utf8ByteSize = 29 ∧
    lineCount (renderGridString { header := ["1"], rows := [["1"]] }) = 5 ∧
    (29 : Nat) ≠ 5 :=
  ⟨rfl, rfl, rfl, rfl, by decide⟩

/-- C4 (amended): every loop iteration re-renders before dispatching the
event — `runStep` first runs `ui`, which recomputes the table and sets
`ScrollState.content_length` to the *byte length* of the rendered grid
string (`table.len()` on a Rust `String`), not to its line count. -/
theorem c4_amended (db : Connection) (a : App) (t : Table) (k : KeyEvent)
    (h : a.data_to_table = .ok t) :
    ∃ a1, ui a = .ok a1 ∧
      a1.vertical_scroll_state.content_length = (renderGridString t).utf8ByteSize ∧
      a1.vertical_scroll_state.position = a.vertical_scroll_state.position ∧
      a1.input = a.input ∧ a1.data = a.data ∧
      runStep db a k = processEvent db a1 k := by
  have h1 : ui a = .ok { a with vertical_scroll_state :=
      { a.vertical_scroll_state with
          content_length := (renderGridString t).utf8ByteSize } } := by
    simp [ui, h]
  exact ⟨_, h1, rfl, rfl, rfl, rfl, by simp [runStep, h1]⟩

/-- C4 witness: the amended statement at the concrete `SELECT 1` app. -/
theorem c4_witness :
    ∃ a1, ui appData1 = .ok a1 ∧
      a1.vertical_scroll_state.content_length
        = (renderGridString { header := ["1"], rows := [["1"]] }).utf8ByteSize ∧
      a1.vertical_scroll_state.position = appData1.vertical_scroll_state.position ∧
      a1.input = appData1.input ∧ a1.data = appData1.data ∧
      runStep goodConn appData1 ⟨.esc, .press⟩ = processEvent goodConn a1 ⟨.esc, .press⟩ :=
  c4_amended goodConn appData1 { header := ["1"], rows := [["1"]] } ⟨.esc, .press⟩ rfl

/-- C5, counterexample: a result with one row whose single cell value
fails to format renders *successfully*: `data_to_table` returns `Ok` and
the cell text is the substituted error message, because
`with_display_error(true)` writes value-level formatting failures into
the output instead of surfacing them. -/
theorem c5_counterexample :
    appBadCell.data_to_table
      = .ok { header := ["c"], rows := [["ERROR: Invalid date"]] } := rfl

/-- C5 (amended): only formatter *construction* failures (an unsupported
column data type in `ArrayFormatter::try_new`) are surfaced as an error
from `data_to_table`; whenever every column type is supported the
rendering succeeds, with each failing cell *value* replaced by its error
text inside the grid (the substitution is part of
`ArrayFormatter.value`). -/
theorem c5_amended (a : App) :
    ((∃ b ∈ a.data, ∃ c ∈ b.columns, c.supportedType = false) →
      ∃ e, a.data_to_table = .error e) ∧
    ((∀ b ∈ a.data, ∀ c ∈ b.columns, c.supportedType = true) →
      ∃ t, a.data_to_table = .ok t ∧ t.rows = (a.data.map batchRowsSpec).flatten) := by
  constructor
  · rintro ⟨b, hb, hbad⟩
    cases hdata : a.data with
    | nil => rw [hdata] at hb; simp at hb
    | cons b0 rest =>
      obtain ⟨e, he⟩ := batchRows_error b hbad
      obtain ⟨e2, he2⟩ := collectResults_map_error a.data batchRows ⟨b, hb, e, he⟩
      refine ⟨e2, ?_⟩
      rw [hdata] at he2
      unfold App.data_to_table
      rw [hdata, he2]
  · intro hsup
    cases hdata : a.data with
    | nil =>
      refine ⟨{}, ?_, by simp⟩
      unfold App.data_to_table
      rw [hdata]
    | cons b0 rest =>
      have hok : collectResults (a.data.map batchRows) = .ok (a.data.map batchRowsSpec) :=
        collectResults_map_ok a.data batchRows batchRowsSpec
          (fun b hbm => batchRows_ok b (hsup b hbm))
      rw [hdata] at hok
      refine ⟨{ header := b0.fields, rows := ((b0 :: rest).map batchRowsSpec).flatten }, ?_, rfl⟩
      unfold App.data_to_table
      rw [hdata, hok]

/-- C5 witness: both branches of the amended statement at concrete
results — an unsupported column type errors, an unformattable value does
not. -/
theorem c5_witness :
    (∃ e, appUnsup.data_to_table = .error e) ∧
    (∃ t, appBadCell.data_to_table = .ok t ∧
      t.rows = (appBadCell.data.map batchRowsSpec).flatten) :=
  ⟨(c5_amended appUnsup).1 ⟨unsupBatch, by simp [appUnsup], unsupCol, by simp [unsupBatch], rfl⟩,
   (c5_amended appBadCell).2 (by decide)⟩

/-- C6: on a successful submission the collected batches replace `data`
wholesale, the input text is cleared and the cursor is reset to 0, with
every other field unchanged (the result state is literally the record
update). -/
theorem c6_theorem (db : Connection) (a : App) (stmt : Statement)
    (batches : List RecordBatch)
    (h1 : db.prepare a.input = .ok stmt)
    (h2 : db.query_arrow stmt = .ok batches) :
    a.submit_sql db = .ok { a with data := batches, input := [], cursor_position := 0 } := by
  simp [App.submit_sql, h1, h2]

/-- C6 witness: submitting `SELECT 1` on a succeeding connection. -/
theorem c6_witness :
    appSel.submit_sql goodConn
      = .ok { appSel with data := [batch1], input := [], cursor_position := 0 } :=
  c6_theorem goodConn appSel ⟨appSel.input⟩ [batch1] rfl rfl

/-- C7: an empty ResultSet renders as the table with no header cells and
no rows; a non-empty ResultSet renders (when rendering succeeds) with the
first batch's schema names as header, the batch-order concatenation of
the per-batch row lists as rows, and the total row count equal to the sum
of the per-batch row counts. -/
theorem c7_theorem (a : App) (t : Table) :
    (a.data = [] → a.data_to_table = .ok { header := [], rows := [] }) ∧
    (∀ b rest, a.data = b :: rest → a.data_to_table = .ok t →
      t.header = b.fields ∧
      t.rows = (a.data.map batchRowsSpec).flatten ∧
      t.rows.length = (a.data.map RecordBatch.numRows).sum) := by
  constructor
  · intro h
    unfold App.data_to_table
    rw [h]
  · intro b rest hd h
    obtain ⟨hh, hr⟩ := data_to_table_ok_inv a b rest hd t h
    refine ⟨hh, hr, ?_⟩
    rw [hr]
    have hlen : ∀ x : RecordBatch, (batchRowsSpec x).length = x.numRows := by
      intro x; simp [batchRowsSpec]
    simp only [List.length_flatten, List.map_map]
    have hfun : (List.length ∘ batchRowsSpec) = RecordBatch.numRows := funext hlen
    rw [hfun]

/-- C7 witness: the empty case and a concrete two-batch result with row
counts 1 and 2. -/
theorem c7_witness :
    appEmpty.data_to_table = .ok { header := [], rows := [] } ∧
    (tTwo.header = batchA.fields ∧
      tTwo.rows = (appTwo.data.map batchRowsSpec).flatten ∧
      tTwo.rows.length = (appTwo.data.map RecordBatch.numRows).sum) :=
  ⟨(c7_theorem appEmpty { header := [], rows := [] }).1 rfl,
   (c7_theorem appTwo tTwo).2 batchA [batchB] rfl rfl⟩

/-- C8, counterexample: on the buffer holding the single two-byte
character `é` with the cursor at 0, `move_cursor_right` moves the cursor
to 2 — the step and the clamp act on byte offsets — while the claimed
scalar-value semantics `min (0 + 10) (length in scalar values)` gives 1. -/
theorem c8_counterexample :
    appE.move_cursor_right.cursor_position = 2 ∧
    min (appE.cursor_position + 10) appE.input.length = 1 ∧
    (2 : Nat) ≠ 1 :=
  ⟨rfl, rfl, by decide⟩

/-- C8 (amended): `enter_char` inserts at the *byte* offset
`cursor_position` (panicking when that offset is not a char boundary)
and then advances the cursor by a fixed step of 10 *byte* positions
clamped to the byte length of the new text; `move_cursor_left` /
`move_cursor_right` adjust the cursor by ∓10 byte positions clamped into
`[0, byteLen(text)]`. -/
theorem c8_amended (a a2 : App) (c : Char) :
    (a.enter_char c = some a2 →
      a2.cursor_position = min (a.cursor_position + 10) (byteLen a2.input)) ∧
    a.move_cursor_left.cursor_position = min (a.cursor_position - 10) (byteLen a.input) ∧
    a.move_cursor_right.cursor_position = min (a.cursor_position + 10) (byteLen a.input) := by
  refine ⟨?_, rfl, rfl⟩
  intro h
  rcases Option.map_eq_some'.mp h with ⟨t, _, rfl⟩
  simp [App.move_cursor_right, App.clamp_cursor]

/-- C8 witness: the amended cursor arithmetic at the concrete `é`
insertion. -/
theorem c8_witness :
    appEmpty.enter_char 'é' = some appE1 ∧
    appE1.cursor_position = min (appEmpty.cursor_position + 10) (byteLen appE1.input) :=
  ⟨rfl, (c8_amended appEmpty appE1 'é').1 rfl⟩

/-- C9: in Normal mode the Up and Down arms dispatch to the scroll
steps; Up is a no-op at offset 0 (so any number of Up events from 0
leaves the offset at 0) and decrements by exactly 1 when the offset is at
least 1; Down increments by exactly 1 (up to `usize` saturation) with no
upper-bound clamp — in particular its result does not depend on
`content_length`. -/
theorem c9_theorem :
    (∀ db a k, a.input_mode = .normal →
      processEvent db a ⟨.up, k⟩ = .cont (scrollUpStep a) ∧
      processEvent db a ⟨.down, k⟩ = .cont (scrollDownStep a)) ∧
    (∀ a, a.vertical_scroll = 0 → scrollUpStep a = a) ∧
    (∀ a, 1 ≤ a.vertical_scroll →
      (scrollUpStep a).vertical_scroll = a.vertical_scroll - 1) ∧
    (∀ n a, a.vertical_scroll = 0 → (upIter n a).vertical_scroll = 0) ∧
    (∀ a, a.vertical_scroll < USIZE_MAX →
      (scrollDownStep a).vertical_scroll = a.vertical_scroll + 1) := by
  have hup0 : ∀ a : App, a.vertical_scroll = 0 → scrollUpStep a = a := by
    intro a h
    unfold scrollUpStep
    rw [h]
    simp
  refine ⟨?_, hup0, ?_, ?_, ?_⟩
  · intro db a k h
    constructor <;> simp [processEvent, h]
  · intro a h
    unfold scrollUpStep
    rw [if_pos h]
  · intro n
    induction n with
    | zero => intro a h; simpa [upIter] using h
    | succ m ih =>
      intro a h
      unfold upIter
      rw [hup0 a h]
      exact ih a h
  · intro a h
    unfold scrollDownStep
    simp only
    omega

/-- C9 witness: the scroll behavior at the concrete fresh Normal-mode
app. -/
theorem c9_witness :
    processEvent goodConn appNormal ⟨.up, .press⟩ = .cont (scrollUpStep appNormal) ∧
    (upIter 3 appNormal).vertical_scroll = 0 ∧
    (scrollDownStep appNormal).vertical_scroll = appNormal.vertical_scroll + 1 :=
  ⟨(c9_theorem.1 goodConn appNormal .press rfl).1,
   c9_theorem.2.2.2.1 3 appNormal rfl,
   c9_theorem.2.2.2.2 appNormal (by decide)⟩

/-- C10: pressing Enter in Editing mode dispatches to `submit_sql`; when
the submission succeeds the loop continues with its result, in which the
input mode is still Editing and both the vertical scroll offset and the
scrollbar state are exactly as before the submission (only `input`,
`cursor_position` and `data` can change). -/
theorem c10_theorem (db : Connection) (a a2 : App)
    (hm : a.input_mode = .editing)
    (hs : a.submit_sql db = .ok a2) :
    processEvent db a ⟨.enter, .press⟩ = .cont a2 ∧
    a2.input_mode = .editing ∧
    a2.vertical_scroll = a.vertical_scroll ∧
    a2.vertical_scroll_state = a.vertical_scroll_state := by
  have hfields : a2.input_mode = a.input_mode ∧
      a2.vertical_scroll = a.vertical_scroll ∧
      a2.vertical_scroll_state = a.vertical_scroll_state := by
    unfold App.submit_sql at hs
    split at hs
    · exact absurd hs (by simp)
    · split at hs
      · exact absurd hs (by simp)
      · simp only [SubmitResult.ok.injEq] at hs
        rw [← hs]
        exact ⟨rfl, rfl, rfl⟩
  refine ⟨?_, hm ▸ hfields.1, hfields.2.1, hfields.2.2⟩
  simp [processEvent, hm, hs]

/-- C10 witness: a concrete successful Enter press in Editing mode. -/
theorem c10_witness :
    processEvent goodConn appSel ⟨.enter, .press⟩
      = .cont { appSel with data := [batch1], input := [], cursor_position := 0 } ∧
    ({ appSel with data := [batch1], input := [], cursor_position := 0 } : App).input_mode
      = .editing ∧
    ({ appSel with data := [batch1], input := [], cursor_position := 0 } : App).vertical_scroll
      = appSel.vertical_scroll ∧
    ({ appSel with data := [batch1], input := [], cursor_position := 0 } : App).vertical_scroll_state
      = appSel.vertical_scroll_state :=
  c10_theorem goodConn appSel _ rfl rfl

end Civciv
